/-
  Verification of the immich-image-cleaner repository.

  Shallow embedding of the two source files:
    - src/app.py        (Flask dashboard: ImmichAPIClient, UnwantedImageDetector,
                         ImageCleanerEngine, route handlers, run_batch_analysis)
    - src/immich_cleaner.py (ImmichCleaner: filename-regex classifier plus the
                         cleanup_candidates SQLite store)

  Conventions of the embedding:
    - Python str values are embedded as `List Char` (text that is inspected) or
      `String` (uninterpreted identifiers / status tags).  `.lower()` is
      `Char.toLower`
      mapped over the list (the inspected text is ASCII).
    - Python float arithmetic is embedded as exact rationals (`ℚ`): every
      operation performed by the code (adding fixed decimal weights, `min`) is
      monotone and the properties proved are interval/identity facts.
    - Python dict `.get(key, default)` with possibly-absent keys is `Option`
      plus `Option.getD`.  The `exifInfo` field can additionally be JSON `null`
      (the server returns `exifInfo: null` for assets without EXIF), in which
      case `asset_info.get("exifInfo", ...)` yields `None` and the subsequent
      `.get` on it raises `AttributeError`; this three-valued behaviour is the
      `ExifVal` type below.
    - The SQLite tables are association lists keyed by the TEXT PRIMARY KEY.
      `INSERT OR REPLACE` deletes any conflicting row and inserts a fresh row in
      which every column that is *not* named in the column list of the statement
      takes its declared DEFAULT (for `marked_for_deletion`: 0 / false).
    - Effects outside the embedded state (network fetches, the thumbnail
      decoding done by OpenCV, wall-clock time) are inputs: oracle functions
      `fetch`, `fetchInfo`, `faces`, `content` and a timestamp argument `now`.
      Exceptions are `Except String`.
-/
import Mathlib

/-! ## Text helpers (Python `in`, `str.lower`, `str.replace`) -/

/-- `startsWithChars needle hay` is true when `needle` is an initial segment of
`hay` (character-wise). -/
def startsWithChars : List Char → List Char → Bool
  | [], _ => true
  | _ :: _, [] => false
  | a :: as, b :: bs => a == b && startsWithChars as bs

/-- `containsSub needle hay`: the Python substring test `needle in hay`. -/
def containsSub (needle : List Char) : List Char → Bool
  | [] => needle.isEmpty
  | c :: rest => startsWithChars needle (c :: rest) || containsSub needle rest

/-- Python `pattern.replace(backslash, empty)`: drop every backslash. -/
def stripBackslashes (p : List Char) : List Char :=
  p.filter (fun c => c ≠ '\\')

/-- Python `s.lower()` on the ASCII text inspected by the detector. -/
def lowerChars (s : List Char) : List Char :=
  s.map Char.toLower

/-! ## Evidence and recommendations

The detector accumulates human-readable evidence strings; each string is a
fixed template naming the rule that fired plus the datum it fired on.  The
embedding keeps them as symbolic (template, datum) pairs. -/

/-- One evidence entry of `UnwantedImageDetector` (`result["flags"]`).
Each constructor is one f-string template of src/app.py. -/
inductive Evidence
  /-- `f"Immich detected {n} faces"` -/
  | immichDetectedFaces (n : Nat)
  /-- `f"Screenshot pattern: {pattern}"` -/
  | screenshotPattern (p : List Char)
  /-- `f"Web cache pattern: {pattern}"` -/
  | webCachePattern (p : List Char)
  /-- `f"Unwanted keyword: {keyword}"` -/
  | unwantedKeyword (k : List Char)
  /-- `f"Unwanted directory: {dir_name}"` -/
  | unwantedDirectory (d : List Char)
  /-- `f"Small size: {width}x{height}"` -/
  | smallSize (w h : Nat)
  /-- `f"Screenshot resolution: {width}x{height}"` -/
  | screenshotResolution (w h : Nat)
  /-- `f"Unusual aspect ratio: {aspect_ratio:.2f}"` -/
  | unusualAspectRatio (q : ℚ)
  /-- `"Very small file size"` -/
  | verySmallFileSize
  /-- `"Unusually large file"` -/
  | unusuallyLargeFile
  /-- `"No camera information"` -/
  | noCameraInformation
  /-- `f"Screenshot software: {software}"` -/
  | screenshotSoftware (s : List Char)
  /-- `"Missing creation date"` -/
  | missingCreationDate
  /-- `"Could not download for analysis"` -/
  | couldNotDownload
  /-- `"Cannot read image file"` -/
  | cannotReadImageFile
  /-- `f"UI elements detected in thumbnail: {ui_elements}"` -/
  | uiElementsDetected (n : Nat)
  /-- `"Mostly uniform color (possible generated image)"` -/
  | mostlyUniformColor
  /-- `"Content analysis failed"` -/
  | contentAnalysisFailed
deriving DecidableEq

/-- Does a flag come from the screenshot filename-pattern family
(`f"Screenshot pattern: {pattern}"`)? -/
def Evidence.isScreenshotPattern : Evidence → Bool
  | Evidence.screenshotPattern _ => true
  | _ => false

/-- One recommendation string of `_generate_recommendations`. -/
inductive Recommendation
  | stronglyRecommendDeletion
  | considerForRemoval
  | manualReviewRecommended
  | likelyKeep
  | moveToScreenshotsAlbum
  | webArtifactSafeDelete
  | checkHigherQuality
  | corruptedFileDelete
deriving DecidableEq

/-! ## The analysis result record (`analysis_result` dict of `analyze_image`) -/

structure AnalysisResult where
  asset_id : String
  filename : List Char
  file_path : List Char
  file_size : Nat
  mime_type : List Char
  is_screenshot : Bool
  is_web_cache : Bool
  is_low_quality : Bool
  is_duplicate : Bool
  is_corrupt : Bool
  confidence_score : ℚ
  flags : List Evidence
  recommendations : List Recommendation
  analysis_date : String
  has_faces : Bool
  face_count : Nat
  -- `width`, `height`, `aspect_ratio` keys are only added by
  -- `_analyze_asset_metadata` when dimensions are known (hence `Option`).
  width : Option Nat
  height : Option Nat
  aspect : Option ℚ
deriving DecidableEq

/-! ## Asset metadata as fetched from Immich (`asset_info` dict) -/

/-- The EXIF block riding on an asset (`asset_info["exifInfo"]`).  Fields the
detector reads; each may be absent from the JSON object. -/
structure ExifData where
  imageWidth : Option Nat
  imageHeight : Option Nat
  exifImageWidth : Option Nat
  exifImageHeight : Option Nat
  make : Option (List Char)
  model : Option (List Char)
  software : Option (List Char)
  dateTimeOriginal : Option (List Char)
deriving DecidableEq

/-- `exifInfo` is three-valued in the wire format: the key can be missing,
be JSON `null` (Python `None`), or hold an object. -/
inductive ExifVal
  | absent
  | null
  | val (e : ExifData)
deriving DecidableEq

/-- The empty EXIF object `{}` used as the `.get` default. -/
def emptyExif : ExifData :=
  { imageWidth := none, imageHeight := none, exifImageWidth := none
    exifImageHeight := none, make := none, model := none, software := none
    dateTimeOriginal := none }

/-- The dict the detector reads out of `asset_info` after `.get` defaults. -/
def exifOrEmpty : ExifVal → ExifData
  | ExifVal.absent => emptyExif
  | ExifVal.null => emptyExif   -- unreachable behind the null guard
  | ExifVal.val e => e

/-- Asset metadata returned by `get_asset_info` (the fields the core reads). -/
structure AssetInfo where
  originalFileName : Option (List Char)
  originalPath : Option (List Char)
  originalSize : Option Nat
  typeTag : Option (List Char)   -- the `type` key
  exifInfo : ExifVal
  fileCreatedAt : Option (List Char)
deriving DecidableEq

/-! ## Detector configuration tables (`UnwantedImageDetector.__init__`) -/

def screenshot_patterns : List (List Char) :=
  [ "screenshot".toList, "screen_shot".toList, "screen shot".toList,
    "capture".toList, "snap".toList,
    "img_\\d{4}".toList, "image_\\d{4}".toList, "vlcsnap".toList,
    "snapshot".toList,
    "screenshot_\\d{8}".toList, "screen_\\d{8}".toList, "capture_\\d{8}".toList,
    "clipboard".toList, "prtscr".toList, "snip".toList,
    "webpage".toList, "browser".toList, "tab_".toList, "window_".toList ]

def web_cache_patterns : List (List Char) :=
  [ "cache".toList, "temp".toList, "tmp".toList, "preview".toList,
    "thumb".toList,
    "avatar".toList, "profile_pic".toList, "icon".toList, "favicon".toList,
    "banner".toList, "header".toList, "footer".toList, "widget".toList,
    "fb_".toList, "twitter_".toList, "insta_".toList, "snap_".toList,
    "tiktok_".toList,
    "advertisement".toList, "ads_".toList, "promo".toList, "popup".toList ]

def unwanted_keywords : List (List Char) :=
  [ "temp".toList, "tmp".toList, "cache".toList, "backup".toList,
    "copy".toList, "duplicate".toList,
    "untitled".toList, "unknown".toList, "recovered".toList,
    "restored".toList ]

def unwanted_dirs : List (List Char) :=
  [ "temp".toList, "tmp".toList, "cache".toList, "thumbnails".toList,
    "thumbs".toList,
    "preview".toList, "downloads".toList, "screenshots".toList,
    "captures".toList,
    "browser".toList, "chrome".toList, "firefox".toList, "safari".toList,
    "edge".toList,
    "recycle".toList, "trash".toList, "deleted".toList ]

def low_quality_indicators : List (Nat × Nat) :=
  [ (100, 100), (150, 150), (200, 200) ]

def screenshot_resolutions : List (Nat × Nat) :=
  [ (1920, 1080), (1366, 768), (1280, 720), (1024, 768),
    (1440, 900), (1600, 900), (1680, 1050), (1920, 1200),
    (414, 896), (375, 667), (360, 640), (320, 568),
    (411, 731), (393, 851), (428, 926),
    (768, 1024), (1024, 1366), (820, 1180) ]

def screenshot_software : List (List Char) :=
  [ "android".toList, "ios".toList, "windows".toList, "macos".toList,
    "linux".toList,
    "screenshot".toList, "snipping".toList, "capture".toList, "paint".toList,
    "photoshop".toList, "gimp".toList, "canva".toList, "figma".toList ]

/-! ## Rule steps of `UnwantedImageDetector` -/

/-- `_analyze_filename`: substring checks of
`pattern.replace(backslash, empty) in filename.lower()`; the first matching
each family wins (`break`); the generic-keyword scan appends every hit. -/
def analyze_filename (r : AnalysisResult) : AnalysisResult :=
  let fname := lowerChars r.filename
  let r :=
    match screenshot_patterns.find?
        (fun p => containsSub (stripBackslashes p) fname) with
    | some p =>
        { r with is_screenshot := true,
                 flags := r.flags ++ [Evidence.screenshotPattern p] }
    | none => r
  let r :=
    match web_cache_patterns.find?
        (fun p => containsSub (stripBackslashes p) fname) with
    | some p =>
        { r with is_web_cache := true,
                 flags := r.flags ++ [Evidence.webCachePattern p] }
    | none => r
  let keywordHits :=
    (unwanted_keywords.filter (fun k => containsSub k fname)).map
      Evidence.unwantedKeyword
  { r with flags := r.flags ++ keywordHits }

/-- `_analyze_file_path`: substring scan of the storage path against
`unwanted_dirs`; evidence only. -/
def analyze_file_path (r : AnalysisResult) : AnalysisResult :=
  let fpath := lowerChars r.file_path
  let dirHits :=
    (unwanted_dirs.filter (fun d => containsSub d fpath)).map
      Evidence.unwantedDirectory
  { r with flags := r.flags ++ dirHits }

/-- Python `a or b` on two `.get` results holding optional numbers: `None` and
`0` are falsy. -/
def pyOrNat (a b : Option Nat) : Option Nat :=
  match a with
  | some n => if n = 0 then b else some n
  | none => b

/-- Truthiness of the final `width`/`height` value (`if width and height:`):
`None` and `0` are falsy. -/
def natTruthy : Option Nat → Option Nat
  | some n => if n = 0 then none else some n
  | none => none

/-- The dimension part of `_analyze_asset_metadata` (the `if width and height:`
block). -/
def analyze_dimensions (r : AnalysisResult) (e : ExifData) : AnalysisResult :=
  let width := pyOrNat e.imageWidth e.exifImageWidth
  let height := pyOrNat e.imageHeight e.exifImageHeight
  match natTruthy width, natTruthy height with
  | some w, some h =>
    let r := { r with width := some w, height := some h,
                      aspect := some ((w : ℚ) / (h : ℚ)) }
    let r :=
      match low_quality_indicators.find? (fun mp => w ≤ mp.1 && h ≤ mp.2) with
      | some _ =>
          { r with is_low_quality := true,
                   flags := r.flags ++ [Evidence.smallSize w h] }
      | none => r
    let r :=
      if (w, h) ∈ screenshot_resolutions then
        { r with is_screenshot := true,
                 flags := r.flags ++ [Evidence.screenshotResolution w h] }
      else r
    let ar : ℚ := (w : ℚ) / (h : ℚ)
    if ar > 5 ∨ ar < 0.2 then
      { r with flags := r.flags ++ [Evidence.unusualAspectRatio ar] }
    else r
  | _, _ => r

/-- The file-size part of `_analyze_asset_metadata`. -/
def analyze_size (r : AnalysisResult) : AnalysisResult :=
  if r.file_size < 10000 then
    { r with is_low_quality := true, flags := r.flags ++ [Evidence.verySmallFileSize] }
  else if r.file_size > 50000000 then
    { r with flags := r.flags ++ [Evidence.unusuallyLargeFile] }
  else r

/-- Body of `_analyze_asset_metadata` once the EXIF dict has been read. -/
def analyze_asset_metadata_core (r : AnalysisResult) (e : ExifData) :
    AnalysisResult :=
  analyze_size (analyze_dimensions r e)

/-- The `AttributeError` raised by `.get` on a `None` EXIF block. -/
def attributeErrorMsg : String :=
  "AttributeError: NoneType object has no attribute get"

/-- `_analyze_asset_metadata`: reads `asset_info.get("exifInfo", ...)` and then
calls `.get` on it — which raises when `exifInfo` was JSON null. -/
def analyze_asset_metadata (r : AnalysisResult) (info : AssetInfo) :
    Except String AnalysisResult :=
  match info.exifInfo with
  | ExifVal.null => Except.error attributeErrorMsg
  | v => Except.ok (analyze_asset_metadata_core r (exifOrEmpty v))

/-- Truthiness of an optional text field (`None` and the empty text are
falsy). -/
def optStrTruthy : Option (List Char) → Bool
  | some s => !s.isEmpty
  | none => false

/-- Body of `_analyze_exif_data` once the EXIF dict has been read. -/
def analyze_exif_data_core (r : AnalysisResult) (info : AssetInfo)
    (e : ExifData) : AnalysisResult :=
  let r :=
    if !optStrTruthy e.make && !optStrTruthy e.model then
      { r with flags := r.flags ++ [Evidence.noCameraInformation] }
    else r
  let software := lowerChars (e.software.getD [])
  let r :=
    match screenshot_software.find? (fun s => containsSub s software) with
    | some _ =>
        { r with is_screenshot := true,
                 flags := r.flags ++ [Evidence.screenshotSoftware software] }
    | none => r
  if !optStrTruthy info.fileCreatedAt && !optStrTruthy e.dateTimeOriginal then
    { r with flags := r.flags ++ [Evidence.missingCreationDate] }
  else r

/-- `_analyze_exif_data`: same null-guard as `_analyze_asset_metadata`. -/
def analyze_exif_data (r : AnalysisResult) (info : AssetInfo) :
    Except String AnalysisResult :=
  match info.exifInfo with
  | ExifVal.null => Except.error attributeErrorMsg
  | v => Except.ok (analyze_exif_data_core r info (exifOrEmpty v))

/-- What `_analyze_image_content_lightweight` observed for this asset: the
thumbnail download failed, OpenCV could not decode it, it was decoded (with the
UI-line count and the uniformity verdict), or some step inside raised. -/
inductive ContentOutcome
  | downloadFailed
  | decodeFailed
  | analyzed (uiElements : Nat) (mostlyUniform : Bool)
  | raised
deriving DecidableEq

/-- `_analyze_image_content_lightweight`: all failure modes are handled inside
the function itself and recorded as evidence. -/
def content_lightweight (r : AnalysisResult) (o : ContentOutcome) :
    AnalysisResult :=
  match o with
  | ContentOutcome.downloadFailed =>
      { r with flags := r.flags ++ [Evidence.couldNotDownload] }
  | ContentOutcome.decodeFailed =>
      { r with is_corrupt := true,
               flags := r.flags ++ [Evidence.cannotReadImageFile] }
  | ContentOutcome.analyzed ui uniform =>
      let r :=
        if ui > 10 then
          { r with is_screenshot := true,
                   flags := r.flags ++ [Evidence.uiElementsDetected ui] }
        else r
      if uniform then { r with flags := r.flags ++ [Evidence.mostlyUniformColor] }
      else r
  | ContentOutcome.raised =>
      { r with flags := r.flags ++ [Evidence.contentAnalysisFailed] }

/-- `_calculate_confidence`: sequential accumulation exactly as in the
source. -/
def calculate_confidence (r : AnalysisResult) : AnalysisResult :=
  let confidence : ℚ := 0
  let confidence := if r.is_screenshot then confidence + 0.4 else confidence
  let confidence := if r.is_web_cache then confidence + 0.3 else confidence
  let confidence := if r.is_low_quality then confidence + 0.2 else confidence
  let confidence := if r.is_corrupt then confidence + 0.5 else confidence
  let flag_score : ℚ := min ((r.flags.length : ℚ) * 0.05) 0.3
  let confidence := confidence + flag_score
  let confidence :=
    if r.file_size < 10000 then confidence + 0.1
    else if r.file_size > 50000000 then confidence + 0.05
    else confidence
  { r with confidence_score := min confidence 1.0 }

/-- `_generate_recommendations`. -/
def generate_recommendations (r : AnalysisResult) : AnalysisResult :=
  let recs :=
    if r.confidence_score > 0.8 then [Recommendation.stronglyRecommendDeletion]
    else if r.confidence_score > 0.6 then [Recommendation.considerForRemoval]
    else if r.confidence_score > 0.4 then
      [Recommendation.manualReviewRecommended]
    else [Recommendation.likelyKeep]
  let recs :=
    if r.is_screenshot then recs ++ [Recommendation.moveToScreenshotsAlbum]
    else recs
  let recs :=
    if r.is_web_cache then recs ++ [Recommendation.webArtifactSafeDelete]
    else recs
  let recs :=
    if r.is_low_quality then recs ++ [Recommendation.checkHigherQuality]
    else recs
  let recs :=
    if r.is_corrupt then recs ++ [Recommendation.corruptedFileDelete] else recs
  { r with recommendations := recs }

/-! ## The spec-side confidence formula (the wording of claim C6) -/

/-- Sum of the fired strong-indicator weights as the claim states them. -/
def strongIndicatorSum (r : AnalysisResult) : ℚ :=
  (if r.is_screenshot then 0.4 else 0) + (if r.is_web_cache then 0.3 else 0) +
  (if r.is_low_quality then 0.2 else 0) + (if r.is_corrupt then 0.5 else 0)

/-- File-size bonus as the claim states it. -/
def fileSizeBonus (s : Nat) : ℚ :=
  if s < 10000 then 0.1 else if s > 50000000 then 0.05 else 0

/-! ## First theorems (claims C5 and C6) are added after all definitions. -/

/-! ## `analyze_image` pipeline (`UnwantedImageDetector.analyze_image`) -/

/-- Outcome of `analyze_image`: either the verdict dict, or — when a step
raised and the top-level `except` fired — the dict
`{"error": str(e), "asset_id": asset_id}`. -/
inductive AnalyzeOutcome
  | verdict (r : AnalysisResult)
  | errorResult (msg : String) (asset_id : String)
deriving DecidableEq

/-- Is the outcome a verdict (as opposed to the error dict)? -/
def AnalyzeOutcome.isVerdict : AnalyzeOutcome → Bool
  | AnalyzeOutcome.verdict _ => true
  | AnalyzeOutcome.errorResult _ _ => false

/-- The fresh `analysis_result` dict built at the top of `analyze_image`. -/
def initResult (asset_id : String) (info : AssetInfo) (now : String) :
    AnalysisResult :=
  { asset_id := asset_id
    filename := info.originalFileName.getD []
    file_path := info.originalPath.getD []
    file_size := info.originalSize.getD 0
    mime_type := info.typeTag.getD ("unknown".toList)
    is_screenshot := false
    is_web_cache := false
    is_low_quality := false
    is_duplicate := false
    is_corrupt := false
    confidence_score := 0
    flags := []
    recommendations := []
    analysis_date := now
    has_faces := false
    face_count := 0
    width := none
    height := none
    aspect := none }

/-- The `if faces_data:` block recording the face detection of Immich. -/
def withFaces (r : AnalysisResult) (facesCount : Nat) : AnalysisResult :=
  if facesCount > 0 then
    { r with has_faces := true, face_count := facesCount,
             flags := r.flags ++ [Evidence.immichDetectedFaces facesCount] }
  else r

/-- The tail of `analyze_image` after the two EXIF-reading steps: the
conditional lightweight content analysis, the confidence calculation and the
recommendations. -/
def finalizeResult (r : AnalysisResult) (content : ContentOutcome) :
    AnalysisResult :=
  let needs := r.is_screenshot || r.is_web_cache || !r.has_faces
  let r :=
    if needs && decide (r.file_size < 10000000) then content_lightweight r content
    else r
  generate_recommendations (calculate_confidence r)

/-- `UnwantedImageDetector.analyze_image`.  `facesCount` is the length of the
face list fetched from Immich; `content` is what the lightweight content
analysis would observe; `now` is `datetime.now().isoformat()`.  The whole body
runs under `try`, whose handler returns the error dict. -/
def analyze_image (asset_id : String) (info : AssetInfo) (facesCount : Nat)
    (content : ContentOutcome) (now : String) : AnalyzeOutcome :=
  let r := withFaces (initResult asset_id info now) facesCount
  let r := analyze_file_path (analyze_filename r)
  match analyze_asset_metadata r info with
  | Except.error e => AnalyzeOutcome.errorResult e asset_id
  | Except.ok r =>
    match analyze_exif_data r info with
    | Except.error e => AnalyzeOutcome.errorResult e asset_id
    | Except.ok r => AnalyzeOutcome.verdict (finalizeResult r content)

/-! ## Result store: the `asset_analysis` table of src/app.py -/

/-- One row of `asset_analysis` (`CREATE TABLE` in `init_database`). -/
structure AnalysisRow where
  asset_id : String
  filename : List Char
  file_path : List Char
  file_size : Nat
  mime_type : List Char
  width : Option Nat
  height : Option Nat
  is_screenshot : Bool
  is_web_cache : Bool
  is_low_quality : Bool
  is_duplicate : Bool
  is_corrupt : Bool
  has_faces : Bool
  face_count : Nat
  confidence_score : ℚ
  flags : List Evidence
  recommendations : List Recommendation
  analysis_date : String
  status : String
  marked_for_deletion : Bool
deriving DecidableEq

/-- `SELECT ... FROM asset_analysis WHERE asset_id = ?` (TEXT PRIMARY KEY). -/
def db_lookup (db : List AnalysisRow) (asset_id : String) :
    Option AnalysisRow :=
  db.find? (fun row => decide (row.asset_id = asset_id))

/-- `ImageCleanerEngine._save_analysis_result`: `INSERT OR REPLACE INTO
asset_analysis (asset_id, ..., analysis_date, status) VALUES (...)`.
The column list does NOT name `marked_for_deletion`, so the replacing row
takes the declared DEFAULT 0 (false) of that column. -/
def save_analysis_result (db : List AnalysisRow) (r : AnalysisResult) :
    List AnalysisRow :=
  db.filter (fun row => decide (row.asset_id ≠ r.asset_id)) ++
    [{ asset_id := r.asset_id
       filename := r.filename
       file_path := r.file_path
       file_size := r.file_size
       mime_type := r.mime_type
       width := r.width
       height := r.height
       is_screenshot := r.is_screenshot
       is_web_cache := r.is_web_cache
       is_low_quality := r.is_low_quality
       is_duplicate := r.is_duplicate
       is_corrupt := r.is_corrupt
       has_faces := r.has_faces
       face_count := r.face_count
       confidence_score := r.confidence_score
       flags := r.flags
       recommendations := r.recommendations
       analysis_date := r.analysis_date
       status := "analyzed"
       marked_for_deletion := false }]  -- DEFAULT 0: column not in the INSERT

/-- Response of the `/api/mark_for_deletion` route. -/
structure MarkResponse where
  success : Bool
  marked_count : Nat
deriving DecidableEq

/-- The `/api/mark_for_deletion` handler of src/app.py: one
`UPDATE asset_analysis SET marked_for_deletion = 1 WHERE asset_id = ?` per
requested id, then `{"success": True, "marked_count": len(asset_ids)}`. -/
def sql_update_mark (s : List AnalysisRow) (aid : String) : List AnalysisRow :=
  s.map (fun row =>
    if row.asset_id = aid then { row with marked_for_deletion := true }
    else row)

def app_mark_for_deletion (db : List AnalysisRow) (asset_ids : List String) :
    List AnalysisRow × MarkResponse :=
  (asset_ids.foldl sql_update_mark db,
   { success := true, marked_count := asset_ids.length })

/-! ## Result store: the `cleanup_candidates` table of src/immich_cleaner.py -/

/-- One row of `cleanup_candidates` (the `analyzed_at TIMESTAMP DEFAULT
CURRENT_TIMESTAMP` column is a database-assigned wall-clock value no claim
reads; it is left out of the embedding). -/
structure CandidateRow where
  id : String
  filename : List Char
  original_path : List Char
  file_size : Nat
  created_at : List Char
  category : String
  detection_reason : List Char
  marked_for_deletion : Bool
deriving DecidableEq

/-- `SELECT ... FROM cleanup_candidates WHERE id = ?`. -/
def cand_lookup (db : List CandidateRow) (id : String) : Option CandidateRow :=
  db.find? (fun row => decide (row.id = id))

/-- `ImmichCleaner.save_candidate`: `INSERT OR REPLACE INTO cleanup_candidates
(id, filename, original_path, file_size, created_at, category,
detection_reason) VALUES (...)`.  As in `save_analysis_result`, the
`marked_for_deletion` column is not named, so it takes its DEFAULT 0. -/
def save_candidate (db : List CandidateRow) (asset_id : String)
    (filename original_path : List Char) (file_size : Nat)
    (created_at : List Char) (category : String) (reason : List Char) :
    List CandidateRow :=
  db.filter (fun row => decide (row.id ≠ asset_id)) ++
    [{ id := asset_id
       filename := filename
       original_path := original_path
       file_size := file_size
       created_at := created_at
       category := category
       detection_reason := reason
       marked_for_deletion := false }]  -- DEFAULT 0: column not in the INSERT

/-- `ImmichCleaner.mark_for_deletion(asset_ids, mark)`: one
`UPDATE cleanup_candidates SET marked_for_deletion = ? WHERE id = ?` per id. -/
def sql_update_cand_mark (mark : Bool) (s : List CandidateRow) (aid : String) :
    List CandidateRow :=
  s.map (fun row =>
    if row.id = aid then { row with marked_for_deletion := mark } else row)

def cleaner_mark_for_deletion (db : List CandidateRow)
    (asset_ids : List String) (mark : Bool) : List CandidateRow :=
  asset_ids.foldl (sql_update_cand_mark mark) db

/-- `ImmichCleaner.remove_deleted_assets`:
`DELETE FROM cleanup_candidates WHERE id IN (?, ...)`.  SQLite evaluates an
empty `IN ()` list as false, so an empty id list deletes nothing. -/
def remove_deleted_assets (db : List CandidateRow) (asset_ids : List String) :
    List CandidateRow :=
  db.filter (fun row => decide (row.id ∉ asset_ids))

/-! ## `/api/analyze/start` and `run_batch_analysis` (src/app.py) -/

/-- JSON reply of the `/api/analyze/start` handler.  `startsRun` records
whether the handler spawned a `run_batch_analysis` thread. -/
structure StartResponse where
  success : Bool
  message : String
  httpStatus : Nat
  startsRun : Bool
deriving DecidableEq

/-- The `/api/analyze/start` handler.  Its only check is
`if not cleaner_engine:`; it consults nothing about any running analysis
(`runActive` — whether a `run_batch_analysis` thread is currently alive — is
deliberately taken as an argument to show it is never read). -/
def start_analysis (configured : Bool) (runActive : Bool) : StartResponse :=
  if !configured then
    { success := false, message := "Not configured", httpStatus := 400,
      startsRun := false }
  else
    { success := true, message := "Analysis started", httpStatus := 200,
      startsRun := true }

/-- One item of a page returned by `/assets` (the run loop reads only
`asset.get("id")`). -/
structure PageAsset where
  id : Option String
deriving DecidableEq

/-- `ImmichAPIClient.get_assets`: any exception (timeout, non-2xx raised by
`raise_for_status`, malformed JSON) is caught and turned into `[]`. -/
def get_assets (fetch : Nat → Except String (List PageAsset)) (page : Nat) :
    List PageAsset :=
  match fetch page with
  | Except.ok l => l
  | Except.error _ => []

/-- `ImageCleanerEngine.analyze_asset` restricted to its effect on the
`asset_analysis` table: fetch the asset info (`None` on failure → error dict,
nothing saved), run the detector, and save the result only when it is not an
error dict. -/
def engine_analyze_asset (fetchInfo : String → Option AssetInfo)
    (faces : String → Nat) (content : String → ContentOutcome) (now : String)
    (db : List AnalysisRow) (asset_id : String) : List AnalysisRow :=
  match fetchInfo asset_id with
  | none => db
  | some info =>
    match analyze_image asset_id info (faces asset_id) (content asset_id) now with
    | AnalyzeOutcome.verdict r => save_analysis_result db r
    | AnalyzeOutcome.errorResult _ _ => db

/-- Terminal status pushed by `run_batch_analysis` over the socket. -/
inductive RunStatus
  | completed (total_processed : Nat)
  | runError (msg : String)
deriving DecidableEq

/-- The per-page `for asset in assets:` loop of `run_batch_analysis`:
skip items without an id, skip assets already stored with status
`"analyzed"`, otherwise analyze (and count) the asset. -/
def process_page (fetchInfo : String → Option AssetInfo)
    (faces : String → Nat) (content : String → ContentOutcome) (now : String) :
    List PageAsset → List AnalysisRow → Nat → List AnalysisRow × Nat
  | [], db, processed => (db, processed)
  | a :: rest, db, processed =>
    match a.id with
    | none => process_page fetchInfo faces content now rest db processed
    | some asset_id =>
      let alreadyAnalyzed :=
        match db_lookup db asset_id with
        | some row => decide (row.status = "analyzed")
        | none => false
      if alreadyAnalyzed then
        process_page fetchInfo faces content now rest db processed
      else
        process_page fetchInfo faces content now rest
          (engine_analyze_asset fetchInfo faces content now db asset_id)
          (processed + 1)

/-- The `while True:` pagination loop of `run_batch_analysis`.  `fuel` bounds
the number of pages inspected (the source loop has no bound; `none` means the
bound was hit before the run terminated on its own). -/
def run_batch_loop (fetch : Nat → Except String (List PageAsset))
    (fetchInfo : String → Option AssetInfo) (faces : String → Nat)
    (content : String → ContentOutcome) (now : String) :
    Nat → Nat → Nat → List AnalysisRow → Option (RunStatus × List AnalysisRow)
  | 0, _, _, _ => none
  | fuel + 1, page, processed, db =>
    let assets := get_assets fetch page
    if assets.isEmpty then some (RunStatus.completed processed, db)
    else
      let s := process_page fetchInfo faces content now assets db processed
      run_batch_loop fetch fetchInfo faces content now fuel (page + 1) s.2 s.1

/-- `run_batch_analysis`: pages start at 1, zero processed.  The
`"error"` status of its outer handler is reachable only through failures of
effects outside the embedded state (socket emission, database I/O); every
listing failure is absorbed by `get_assets` before the loop can see it. -/
def run_batch_analysis (fetch : Nat → Except String (List PageAsset))
    (fetchInfo : String → Option AssetInfo) (faces : String → Nat)
    (content : String → ContentOutcome) (now : String) (fuel : Nat)
    (db : List AnalysisRow) : Option (RunStatus × List AnalysisRow) :=
  run_batch_loop fetch fetchInfo faces content now fuel 1 0 db

/-! ## Concrete inputs for counterexamples and witnesses -/

/-- A stored verdict whose `marked_for_deletion` flag the user has set. -/
def c1_row : AnalysisRow :=
  { asset_id := "a1", filename := "screenshot.png".toList,
    file_path := "/photos/screenshot.png".toList, file_size := 5000,
    mime_type := "IMAGE".toList, width := none, height := none,
    is_screenshot := true, is_web_cache := false, is_low_quality := true,
    is_duplicate := false, is_corrupt := false, has_faces := false,
    face_count := 0, confidence_score := 0.75, flags := [],
    recommendations := [], analysis_date := "2024-01-01T00:00:00",
    status := "analyzed", marked_for_deletion := true }

def c1_db : List AnalysisRow := [c1_row]

/-- The re-analysis verdict for the same asset identifier. -/
def c1_result : AnalysisResult :=
  { asset_id := "a1", filename := "screenshot.png".toList,
    file_path := "/photos/screenshot.png".toList, file_size := 5000,
    mime_type := "IMAGE".toList, is_screenshot := true, is_web_cache := false,
    is_low_quality := true, is_duplicate := false, is_corrupt := false,
    confidence_score := 0.8, flags := [], recommendations := [],
    analysis_date := "2024-02-01T00:00:00", has_faces := false,
    face_count := 0, width := none, height := none, aspect := none }

/-- A cleanup candidate whose `marked_for_deletion` flag the user has set. -/
def c1_cand : CandidateRow :=
  { id := "a1", filename := "screenshot.png".toList,
    original_path := "/photos/screenshot.png".toList, file_size := 5000,
    created_at := "2024-01-01".toList, category := "screenshot",
    detection_reason := "Filename matches pattern".toList,
    marked_for_deletion := true }

def c1_cdb : List CandidateRow := [c1_cand]

/-- A source whose first page lists one asset and whose second listing call
fails (timeout / non-2xx / malformed payload). -/
def c3_fetch : Nat → Except String (List PageAsset) :=
  fun page => if page = 1 then Except.ok [{ id := some "a1" }]
              else Except.error "HTTP 500 from /assets"

/-- Plain metadata for the one listed asset. -/
def c3_info : AssetInfo :=
  { originalFileName := some ("beach.jpg".toList),
    originalPath := some ("/photos/beach.jpg".toList),
    originalSize := some 2000000, typeTag := some ("IMAGE".toList),
    exifInfo := ExifVal.absent, fileCreatedAt := some ("2024-01-01".toList) }

def c3_fetchInfo : String → Option AssetInfo :=
  fun asset_id => if asset_id = "a1" then some c3_info else none

/-- Metadata fetched successfully but whose `exifInfo` is JSON null — the
server does return `exifInfo: null` for assets without an EXIF block. -/
def c4_info : AssetInfo :=
  { originalFileName := some ("photo.jpg".toList),
    originalPath := some ("/photos/photo.jpg".toList),
    originalSize := some 2000000, typeTag := some ("IMAGE".toList),
    exifInfo := ExifVal.null, fileCreatedAt := some ("2024-01-01".toList) }

/-- Witness asset for C7: filename matching the first screenshot pattern. -/
def c7_info : AssetInfo :=
  { originalFileName := some ("Screenshot_2023.png".toList),
    originalPath := some ("/photos/x.png".toList),
    originalSize := some 400000, typeTag := some ("IMAGE".toList),
    exifInfo := ExifVal.absent, fileCreatedAt := some ("2024-01-01".toList) }

/-- Witness asset for C8: a vacation photo named innocuously but with the
exact dimensions of a common display. -/
def c8_exif : ExifData :=
  { imageWidth := some 1920, imageHeight := some 1080,
    exifImageWidth := none, exifImageHeight := none,
    make := some ("Canon".toList), model := some ("EOS".toList),
    software := none, dateTimeOriginal := some ("2024-01-01".toList) }

def c8_info : AssetInfo :=
  { originalFileName := some ("vacation.jpg".toList),
    originalPath := some ("/photos/vacation.jpg".toList),
    originalSize := some 3000000, typeTag := some ("IMAGE".toList),
    exifInfo := ExifVal.val c8_exif,
    fileCreatedAt := some ("2024-01-01".toList) }

/-- A small store used by the C9 and C10 witnesses. -/
def c9_cdb : List CandidateRow := [c1_cand]

def c10_db : List AnalysisRow := [c1_row]

/-! ## Claim theorems -/

/-- C5: for every analysis-result state — including one with empty or missing
metadata — the confidence score computed by `_calculate_confidence` lies in
the closed interval [0, 1]. -/
theorem C5_confidence_in_unit_interval (r : AnalysisResult) :
    0 ≤ (calculate_confidence r).confidence_score ∧
    (calculate_confidence r).confidence_score ≤ 1 := by
  have hm : (0 : ℚ) ≤ min ((r.flags.length : ℚ) * 0.05) 0.3 :=
    le_min (by positivity) (by norm_num)
  unfold calculate_confidence
  constructor
  · simp only
    rw [le_min_iff]
    refine ⟨?_, by norm_num⟩
    split_ifs <;> linarith
  · simp only
    exact (min_le_right _ _).trans (by norm_num)

/-- C6: the final confidence equals the sum of the fired strong-indicator
weights (screenshot +0.4, web_cache +0.3, low_quality +0.2, corrupt +0.5)
plus `min(0.05 × evidence_count, 0.3)` over the accumulated flags plus the
file-size bonus (+0.1 below 10000 bytes, +0.05 above 50000000 bytes), clamped
to at most 1.0. -/
theorem C6_confidence_formula (r : AnalysisResult) :
    (calculate_confidence r).confidence_score =
      min (strongIndicatorSum r + min ((r.flags.length : ℚ) * 0.05) 0.3 +
        fileSizeBonus r.file_size) 1 := by
  unfold calculate_confidence strongIndicatorSum fileSizeBonus
  simp only
  split_ifs <;> (congr 1 <;> first | ring | norm_num)

/-! ## Store helper lemmas -/

/-- A `find?` over a list containing an element satisfying the predicate is
not `none`. -/
theorem find?_ne_none_of_mem {α : Type} (p : α → Bool) {l : List α} {x : α}
    (hx : x ∈ l) (hp : p x = true) : l.find? p ≠ none := by
  intro hnone
  rw [List.find?_eq_none] at hnone
  exact hnone x hx hp

/-- A primary-key lookup misses exactly when no row carries the key. -/
theorem cand_lookup_eq_none_iff (db : List CandidateRow) (id : String) :
    cand_lookup db id = none ↔ ∀ row ∈ db, row.id ≠ id := by
  simp [cand_lookup, List.find?_eq_none]

/-- A primary-key lookup hits exactly when some row carries the key. -/
theorem cand_lookup_ne_none_iff (db : List CandidateRow) (id : String) :
    cand_lookup db id ≠ none ↔ ∃ row ∈ db, row.id = id := by
  rw [ne_eq, cand_lookup_eq_none_iff]
  push_neg
  rfl

/-- Same as `cand_lookup_eq_none_iff` for the `asset_analysis` table. -/
theorem db_lookup_eq_none_iff (db : List AnalysisRow) (id : String) :
    db_lookup db id = none ↔ ∀ row ∈ db, row.asset_id ≠ id := by
  simp [db_lookup, List.find?_eq_none]

/-- An `UPDATE ... WHERE asset_id = ?` hitting no row leaves the table as
it was. -/
theorem sql_update_mark_noop (db : List AnalysisRow) (aid : String)
    (h : ∀ row ∈ db, row.asset_id ≠ aid) : sql_update_mark db aid = db := by
  unfold sql_update_mark
  induction db with
  | nil => rfl
  | cons a t ih =>
    simp only [List.map_cons]
    rw [if_neg (h a (List.mem_cons_self a t)), ih]
    intro r hr
    exact h r (List.mem_cons_of_mem a hr)

/-- `sql_update_mark` keeps every key in place. -/
theorem sql_update_mark_keeps_keys (db : List AnalysisRow) (aid id : String)
    (h : db_lookup db id ≠ none) : db_lookup (sql_update_mark db aid) id ≠ none := by
  rw [ne_eq, db_lookup_eq_none_iff] at h
  push_neg at h
  obtain ⟨row, hrow, hid⟩ := h
  refine find?_ne_none_of_mem _ (List.mem_map_of_mem _ hrow) ?_
  have hproj :
      (if row.asset_id = aid then { row with marked_for_deletion := true }
       else row).asset_id = row.asset_id := by
    split <;> rfl
  rw [hproj, hid]
  simp

/-- `sql_update_cand_mark` keeps every key in place. -/
theorem sql_update_cand_mark_keeps_keys (m : Bool) (db : List CandidateRow)
    (aid id : String) (h : cand_lookup db id ≠ none) :
    cand_lookup (sql_update_cand_mark m db aid) id ≠ none := by
  rw [cand_lookup_ne_none_iff] at h
  obtain ⟨row, hrow, hid⟩ := h
  refine find?_ne_none_of_mem _ (List.mem_map_of_mem _ hrow) ?_
  have hproj :
      (if row.id = aid then { row with marked_for_deletion := m }
       else row).id = row.id := by
    split <;> rfl
  rw [hproj, hid]
  simp

/-- C1 (code bug): the spec requires the upsert to preserve an existing
`marked_for_deletion = true` across re-analysis, but both writers use
`INSERT OR REPLACE` without naming that column, so SQLite replaces the row
and the flag falls back to its DEFAULT 0.  Evaluated at the failing input:
a store holding asset `a1` with the flag set, then a re-analysis upsert for
`a1` — the flag comes back `false` from both stores. -/
theorem C1_reanalysis_resets_marked_flag :
    (db_lookup c1_db "a1").map AnalysisRow.marked_for_deletion = some true ∧
    (db_lookup (save_analysis_result c1_db c1_result) "a1").map
        AnalysisRow.marked_for_deletion = some false ∧
    (cand_lookup c1_cdb "a1").map CandidateRow.marked_for_deletion =
        some true ∧
    (cand_lookup
        (save_candidate c1_cdb "a1" ("screenshot.png".toList)
          ("/photos/screenshot.png".toList) 5000 ("2024-01-01".toList)
          "screenshot" ("Filename matches pattern".toList)) "a1").map
        CandidateRow.marked_for_deletion = some false := by
  refine ⟨rfl, ?_, rfl, ?_⟩ <;> decide

/-- C2 counterexample: with the engine configured and a batch run already
active, `/api/analyze/start` still answers success 200 and spawns another
`run_batch_analysis` thread — the request is neither rejected with
`already_running` nor prevented from running concurrently. -/
theorem C2_counterexample_start_while_active_accepted :
    start_analysis true true =
      { success := true, message := "Analysis started", httpStatus := 200,
        startsRun := true } := rfl

/-- C2 (amended): `/api/analyze/start` checks only whether the engine is
configured.  Whatever the run state, a configured engine yields success 200
and spawns a new (possibly concurrent) run; the only rejection is the 400
`Not configured` reply.  No `already_running` rejection exists. -/
theorem C2_start_only_checks_configuration (runActive : Bool) :
    start_analysis true runActive =
      { success := true, message := "Analysis started", httpStatus := 200,
        startsRun := true } ∧
    start_analysis false runActive =
      { success := false, message := "Not configured", httpStatus := 400,
        startsRun := false } :=
  ⟨rfl, rfl⟩

/-- C9: `remove_deleted_assets` on identifiers absent from the store is a
no-op (not an error); a removed identifier can no longer be looked up; and
the other mutators of `cleanup_candidates` (`save_candidate`,
`mark_for_deletion`) never make a stored identifier disappear — `remove` is
the sole deleter. -/
theorem C9_remove_idempotent_and_sole_deleter :
    (∀ (s : List CandidateRow) (ids : List String),
       (∀ id ∈ ids, cand_lookup s id = none) →
       remove_deleted_assets s ids = s) ∧
    (∀ (s : List CandidateRow) (ids : List String) (id : String), id ∈ ids →
       cand_lookup (remove_deleted_assets s ids) id = none) ∧
    (∀ (s : List CandidateRow) (aid : String) (fn op : List Char) (sz : Nat)
       (ca : List Char) (cat : String) (rsn : List Char) (id : String),
       cand_lookup s id ≠ none →
       cand_lookup (save_candidate s aid fn op sz ca cat rsn) id ≠ none) ∧
    (∀ (s : List CandidateRow) (ids : List String) (m : Bool) (id : String),
       cand_lookup s id ≠ none →
       cand_lookup (cleaner_mark_for_deletion s ids m) id ≠ none) := by
  refine ⟨?_, ?_, ?_, ?_⟩
  · intro s ids h
    unfold remove_deleted_assets
    rw [List.filter_eq_self]
    intro row hrow
    simp only [decide_eq_true_eq]
    intro hmem
    exact ((cand_lookup_eq_none_iff s row.id).mp (h row.id hmem)) row hrow rfl
  · intro s ids id hid
    rw [cand_lookup_eq_none_iff]
    intro row hrow
    unfold remove_deleted_assets at hrow
    rw [List.mem_filter] at hrow
    intro heq
    exact (decide_eq_true_eq.mp hrow.2) (heq ▸ hid)
  · intro s aid fn op sz ca cat rsn id h
    rw [cand_lookup_ne_none_iff] at h
    obtain ⟨row, hrow, hid⟩ := h
    unfold save_candidate cand_lookup
    by_cases hc : id = aid
    · refine find?_ne_none_of_mem (fun row : CandidateRow => decide (row.id = id))
        (x := { id := aid, filename := fn, original_path := op,
                file_size := sz, created_at := ca, category := cat,
                detection_reason := rsn, marked_for_deletion := false })
        (List.mem_append_right _ (List.mem_singleton.mpr rfl)) ?_
      simp [hc]
    · refine find?_ne_none_of_mem (fun row : CandidateRow => decide (row.id = id))
        (x := row) (List.mem_append_left _ ?_) ?_
      · rw [List.mem_filter]
        refine ⟨hrow, ?_⟩
        simp only [decide_eq_true_eq]
        rw [hid]
        exact hc
      · simp [hid]
  · intro s ids m id h
    unfold cleaner_mark_for_deletion
    induction ids generalizing s with
    | nil => exact h
    | cons a t ih =>
      exact ih _ (sql_update_cand_mark_keeps_keys m s a id h)

/-- C9 witness: concrete instances of every hypothesis-bearing conjunct,
obtained by applying `C9_remove_idempotent_and_sole_deleter` at the sample
store. -/
theorem C9_witness :
    remove_deleted_assets c9_cdb ["zz"] = c9_cdb ∧
    cand_lookup (remove_deleted_assets c9_cdb ["a1"]) "a1" = none ∧
    cand_lookup (save_candidate c9_cdb "b2" ("x.png".toList) ("/x".toList) 10
      ("2024".toList) "web_file" ("r".toList)) "a1" ≠ none ∧
    cand_lookup (cleaner_mark_for_deletion c9_cdb ["a1"] true) "a1" ≠ none :=
  ⟨C9_remove_idempotent_and_sole_deleter.1 c9_cdb ["zz"] (by decide),
   C9_remove_idempotent_and_sole_deleter.2.1 c9_cdb ["a1"] "a1" (by decide),
   C9_remove_idempotent_and_sole_deleter.2.2.1 c9_cdb "b2" ("x.png".toList)
     ("/x".toList) 10 ("2024".toList) "web_file" ("r".toList) "a1"
     (by decide),
   C9_remove_idempotent_and_sole_deleter.2.2.2 c9_cdb ["a1"] true "a1"
     (by decide)⟩

/-- C10: the `/api/mark_for_deletion` handler reports
`marked_count = len(asset_ids)` and success unconditionally; an identifier
with no stored row is silently skipped by its `UPDATE` yet still counted, so
marking only absent identifiers changes nothing while reporting them all as
marked. -/
theorem C10_mark_count_ignores_existence (db : List AnalysisRow)
    (asset_ids : List String) :
    (app_mark_for_deletion db asset_ids).2.marked_count = asset_ids.length ∧
    (app_mark_for_deletion db asset_ids).2.success = true ∧
    ((∀ aid ∈ asset_ids, db_lookup db aid = none) →
      (app_mark_for_deletion db asset_ids).1 = db) := by
  refine ⟨rfl, rfl, ?_⟩
  intro h
  unfold app_mark_for_deletion
  simp only
  induction asset_ids with
  | nil => rfl
  | cons a t ih =>
    rw [List.foldl_cons,
        sql_update_mark_noop db a ((db_lookup_eq_none_iff db a).mp
          (h a (List.mem_cons_self a t)))]
    exact ih (fun aid haid => h aid (List.mem_cons_of_mem a haid))

/-- C10 witness: two identifiers, neither stored — the handler reports
`marked_count = 2` and the store is untouched. -/
theorem C10_witness :
    (app_mark_for_deletion c10_db ["x", "y"]).2.marked_count = 2 ∧
    (app_mark_for_deletion c10_db ["x", "y"]).1 = c10_db :=
  ⟨(C10_mark_count_ignores_existence c10_db ["x", "y"]).1,
   (C10_mark_count_ignores_existence c10_db ["x", "y"]).2.2 (by decide)⟩

/-- C3 counterexample: the listing source delivers one asset on page 1 and
fails on page 2.  `get_assets` absorbs the failure into `[]`, the loop takes
the empty page as the end of the listing, and the run reports
`completed` (1 processed) — a silently truncated listing presented as a
completed scan, with no run-error status. -/
theorem C3_counterexample_listing_error_reports_completed :
    (run_batch_analysis c3_fetch c3_fetchInfo (fun _ => 0)
        (fun _ => ContentOutcome.analyzed 0 false) "2024-03-01T00:00:00" 5
        []).map Prod.fst = some (RunStatus.completed 1) ∧
    c3_fetch 2 = Except.error "HTTP 500 from /assets" := by
  refine ⟨?_, rfl⟩
  rfl

/-- C3 (amended): a failed page/listing fetch is converted by `get_assets`
into an empty page, which the coordinator cannot distinguish from the end of
the listing: the run stops at that page and reports `completed` with the
counts gathered so far.  No run-error status is produced for listing
failures. -/
theorem C3_listing_error_ends_run_completed
    (fetch : Nat → Except String (List PageAsset))
    (fetchInfo : String → Option AssetInfo) (faces : String → Nat)
    (content : String → ContentOutcome) (now : String)
    (fuel page processed : Nat) (db : List AnalysisRow) (e : String)
    (h : fetch page = Except.error e) :
    run_batch_loop fetch fetchInfo faces content now (fuel + 1) page processed
        db = some (RunStatus.completed processed, db) := by
  unfold run_batch_loop get_assets
  rw [h]
  rfl

/-- C3 witness: the amended statement applied to a source whose very first
listing call times out. -/
theorem C3_witness_listing_error_ends_run_completed :
    run_batch_loop (fun _ => Except.error "timeout") c3_fetchInfo (fun _ => 0)
      (fun _ => ContentOutcome.analyzed 0 false) "t" 3 1 0 [] =
      some (RunStatus.completed 0, []) :=
  C3_listing_error_ends_run_completed _ _ _ _ _ 2 1 0 [] "timeout" rfl

/-- C4 counterexample: an asset whose metadata fetch succeeded but whose
`exifInfo` is JSON null.  `_analyze_asset_metadata` raises
(`.get` on `None`), the exception is not caught inside the steps of the rule
evaluator, and `analyze_image` answers the `{"error": ..., "asset_id": ...}`
dict — not a Verdict and no evidence string. -/
theorem C4_counterexample_null_exif_returns_error_dict :
    analyze_image "a1" c4_info 0 ContentOutcome.raised "t" =
      AnalyzeOutcome.errorResult attributeErrorMsg "a1" := by
  rfl

/-- C4 (amended): only the lightweight content-analysis step catches its own
failures, recording them as the `Content analysis failed` evidence string; an
inspection step throwing outside it (exactly: the EXIF-reading steps on a
null `exifInfo` block) escapes to the top-level handler of `analyze_image`,
which
returns the error dict instead of a Verdict. -/
theorem C4_error_iff_null_exif (asset_id : String) (info : AssetInfo)
    (facesCount : Nat) (content : ContentOutcome) (now : String) :
    ((analyze_image asset_id info facesCount content now).isVerdict = false ↔
      info.exifInfo = ExifVal.null) ∧
    (∀ r : AnalysisResult, content_lightweight r ContentOutcome.raised =
      { r with flags := r.flags ++ [Evidence.contentAnalysisFailed] }) := by
  constructor
  · cases hx : info.exifInfo <;>
      simp [analyze_image, analyze_asset_metadata, analyze_exif_data, hx,
        AnalyzeOutcome.isVerdict]
  · intro r
    rfl

/-! ## Pipeline lemmas for the screenshot claims (C7, C8) -/

/-- Evidence built from a constructor other than `screenshotPattern` never
survives the screenshot-pattern filter. -/
theorem sp_filter_map_eq_nil (f : List Char → Evidence)
    (hf : ∀ x, Evidence.isScreenshotPattern (f x) = false)
    (l : List (List Char)) :
    (l.map f).filter Evidence.isScreenshotPattern = [] := by
  induction l with
  | nil => rfl
  | cons a t ih => simp [List.filter_cons, hf, ih]

/-- `withFaces` does not touch the filename. -/
theorem withFaces_filename (r : AnalysisResult) (n : Nat) :
    (withFaces r n).filename = r.filename := by
  unfold withFaces
  split <;> rfl

/-- `withFaces` adds no screenshot-pattern evidence. -/
theorem withFaces_sp (r : AnalysisResult) (n : Nat) :
    (withFaces r n).flags.filter Evidence.isScreenshotPattern =
      r.flags.filter Evidence.isScreenshotPattern := by
  unfold withFaces
  split
  · simp [List.filter_append, Evidence.isScreenshotPattern, List.filter_cons]
  · rfl

/-- When a screenshot pattern matches the (lowered) filename,
`_analyze_filename` raises the screenshot flag and appends exactly the first
matching pattern as screenshot-pattern evidence. -/
theorem analyze_filename_screenshot_hit (r : AnalysisResult) (p : List Char)
    (h : screenshot_patterns.find? (fun q =>
      containsSub (stripBackslashes q) (lowerChars r.filename)) = some p) :
    (analyze_filename r).is_screenshot = true ∧
    (analyze_filename r).flags.filter Evidence.isScreenshotPattern =
      r.flags.filter Evidence.isScreenshotPattern ++
        [Evidence.screenshotPattern p] := by
  unfold analyze_filename
  simp only
  rw [h]
  constructor
  · split <;> rfl
  · split <;>
      simp [List.filter_append, List.filter_cons, Evidence.isScreenshotPattern,
        sp_filter_map_eq_nil Evidence.unwantedKeyword (fun _ => rfl)]

/-- `_analyze_file_path` preserves the screenshot flag and adds no
screenshot-pattern evidence. -/
theorem analyze_file_path_preserves (r : AnalysisResult) :
    (analyze_file_path r).is_screenshot = r.is_screenshot ∧
    (analyze_file_path r).flags.filter Evidence.isScreenshotPattern =
      r.flags.filter Evidence.isScreenshotPattern := by
  refine ⟨rfl, ?_⟩
  unfold analyze_file_path
  simp [List.filter_append,
    sp_filter_map_eq_nil Evidence.unwantedDirectory (fun _ => rfl)]

/-- The dimension rules never lower the screenshot flag. -/
theorem analyze_dimensions_scr (r : AnalysisResult) (e : ExifData)
    (h : r.is_screenshot = true) :
    (analyze_dimensions r e).is_screenshot = true := by
  unfold analyze_dimensions
  simp only
  split
  · split <;> split <;> split <;> first | rfl | exact h
  · exact h

/-- The dimension rules add no screenshot-pattern evidence. -/
theorem analyze_dimensions_sp (r : AnalysisResult) (e : ExifData) :
    (analyze_dimensions r e).flags.filter Evidence.isScreenshotPattern =
      r.flags.filter Evidence.isScreenshotPattern := by
  unfold analyze_dimensions
  simp only
  split
  · split <;> split <;> split <;>
      simp [List.filter_append, List.filter_cons, Evidence.isScreenshotPattern]
  · rfl

/-- The file-size rules never lower the screenshot flag. -/
theorem analyze_size_scr (r : AnalysisResult) (h : r.is_screenshot = true) :
    (analyze_size r).is_screenshot = true := by
  unfold analyze_size
  split_ifs <;> exact h

/-- The file-size rules add no screenshot-pattern evidence. -/
theorem analyze_size_sp (r : AnalysisResult) :
    (analyze_size r).flags.filter Evidence.isScreenshotPattern =
      r.flags.filter Evidence.isScreenshotPattern := by
  unfold analyze_size
  split_ifs <;>
    simp [List.filter_append, List.filter_cons, Evidence.isScreenshotPattern]

/-- The EXIF rules never lower the screenshot flag. -/
theorem analyze_exif_data_core_scr (r : AnalysisResult) (info : AssetInfo)
    (e : ExifData) (h : r.is_screenshot = true) :
    (analyze_exif_data_core r info e).is_screenshot = true := by
  unfold analyze_exif_data_core
  simp only
  split <;> split <;> split <;> first | rfl | exact h

/-- The EXIF rules add no screenshot-pattern evidence. -/
theorem analyze_exif_data_core_sp (r : AnalysisResult) (info : AssetInfo)
    (e : ExifData) :
    (analyze_exif_data_core r info e).flags.filter
        Evidence.isScreenshotPattern =
      r.flags.filter Evidence.isScreenshotPattern := by
  unfold analyze_exif_data_core
  simp only
  split <;> split <;> split <;>
    simp [List.filter_append, List.filter_cons, Evidence.isScreenshotPattern]

/-- The lightweight content analysis never lowers the screenshot flag. -/
theorem content_lightweight_scr (r : AnalysisResult) (o : ContentOutcome)
    (h : r.is_screenshot = true) :
    (content_lightweight r o).is_screenshot = true := by
  unfold content_lightweight
  cases o with
  | downloadFailed => exact h
  | decodeFailed => exact h
  | analyzed ui uniform =>
      simp only
      split <;> split <;> first | rfl | exact h
  | raised => exact h

/-- The lightweight content analysis adds no screenshot-pattern evidence. -/
theorem content_lightweight_sp (r : AnalysisResult) (o : ContentOutcome) :
    (content_lightweight r o).flags.filter Evidence.isScreenshotPattern =
      r.flags.filter Evidence.isScreenshotPattern := by
  unfold content_lightweight
  cases o with
  | downloadFailed =>
      simp [List.filter_append, List.filter_cons, Evidence.isScreenshotPattern]
  | decodeFailed =>
      simp [List.filter_append, List.filter_cons, Evidence.isScreenshotPattern]
  | analyzed ui uniform =>
      simp only
      split <;> split <;>
        simp [List.filter_append, List.filter_cons,
          Evidence.isScreenshotPattern]
  | raised =>
      simp [List.filter_append, List.filter_cons, Evidence.isScreenshotPattern]

/-- Confidence and recommendation generation touch neither the flag list nor
the boolean indicators. -/
theorem final_scoring_fields (r : AnalysisResult) :
    (generate_recommendations (calculate_confidence r)).is_screenshot =
        r.is_screenshot ∧
    (generate_recommendations (calculate_confidence r)).flags = r.flags :=
  ⟨rfl, rfl⟩

/-- `finalizeResult` never lowers the screenshot flag. -/
theorem finalizeResult_scr (r : AnalysisResult) (o : ContentOutcome)
    (h : r.is_screenshot = true) :
    (finalizeResult r o).is_screenshot = true := by
  unfold finalizeResult
  simp only
  split
  · rw [(final_scoring_fields _).1]
    exact content_lightweight_scr r o h
  · rw [(final_scoring_fields _).1]
    exact h

/-- `finalizeResult` adds no screenshot-pattern evidence. -/
theorem finalizeResult_sp (r : AnalysisResult) (o : ContentOutcome) :
    (finalizeResult r o).flags.filter Evidence.isScreenshotPattern =
      r.flags.filter Evidence.isScreenshotPattern := by
  unfold finalizeResult
  simp only
  split
  · rw [(final_scoring_fields _).2]
    exact content_lightweight_sp r o
  · rw [(final_scoring_fields _).2]

/-- With a non-null EXIF value, `analyze_image` reaches the verdict branch
and its result is the composition of the embedded steps. -/
theorem analyze_image_verdict_form (asset_id : String) (info : AssetInfo)
    (facesCount : Nat) (content : ContentOutcome) (now : String)
    (h : info.exifInfo ≠ ExifVal.null) :
    analyze_image asset_id info facesCount content now =
      AnalyzeOutcome.verdict (finalizeResult
        (analyze_exif_data_core
          (analyze_asset_metadata_core
            (analyze_file_path (analyze_filename
              (withFaces (initResult asset_id info now) facesCount)))
            (exifOrEmpty info.exifInfo))
          info (exifOrEmpty info.exifInfo)) content) := by
  cases hx : info.exifInfo with
  | null => exact absurd hx h
  | absent =>
      simp [analyze_image, analyze_asset_metadata, analyze_exif_data, hx]
  | val e =>
      simp [analyze_image, analyze_asset_metadata, analyze_exif_data, hx]

/-- Every configured screenshot resolution has nonzero width and height (so
the Python truthiness test on the dimensions passes). -/
theorem screenshot_resolutions_nonzero :
    ∀ q ∈ screenshot_resolutions, q.1 ≠ 0 ∧ q.2 ≠ 0 := by decide

/-- When the EXIF dimensions equal a configured screen resolution, the
dimension rules raise the screenshot flag. -/
theorem analyze_dimensions_resolution_hit (r : AnalysisResult) (e : ExifData)
    (w h : Nat) (hw : e.imageWidth = some w) (hh : e.imageHeight = some h)
    (hres : (w, h) ∈ screenshot_resolutions) :
    (analyze_dimensions r e).is_screenshot = true := by
  obtain ⟨hw0, hh0⟩ := screenshot_resolutions_nonzero (w, h) hres
  unfold analyze_dimensions
  simp only [hw, hh, pyOrNat, natTruthy, hw0, hh0, if_false, ite_false]
  simp only [hres, if_true, ite_true]
  split <;> split <;> first | rfl | simp [hres]

/-- C7: an asset whose filename matches a configured screenshot pattern (under
the matcher of the code itself: backslash-stripped pattern contained in the
lowered
filename) is classified with the screenshot flag raised, and its evidence
holds exactly one screenshot-pattern entry — the first matching pattern of
the family (`find?` order). -/
theorem C7_screenshot_pattern_first_match (asset_id : String)
    (info : AssetInfo) (facesCount : Nat) (content : ContentOutcome)
    (now : String) (p : List Char)
    (hfind : screenshot_patterns.find? (fun q =>
      containsSub (stripBackslashes q)
        (lowerChars (info.originalFileName.getD []))) = some p)
    (hexif : info.exifInfo ≠ ExifVal.null) :
    ∃ r, analyze_image asset_id info facesCount content now =
        AnalyzeOutcome.verdict r ∧
      r.is_screenshot = true ∧
      r.flags.filter Evidence.isScreenshotPattern =
        [Evidence.screenshotPattern p] := by
  have hfn : (withFaces (initResult asset_id info now) facesCount).filename =
      info.originalFileName.getD [] := by
    rw [withFaces_filename]
    rfl
  have hhit := analyze_filename_screenshot_hit
    (withFaces (initResult asset_id info now) facesCount) p
    (by rw [hfn]; exact hfind)
  rw [analyze_image_verdict_form asset_id info facesCount content now hexif]
  refine ⟨_, rfl, ?_, ?_⟩
  · apply finalizeResult_scr
    apply analyze_exif_data_core_scr
    unfold analyze_asset_metadata_core
    apply analyze_size_scr
    apply analyze_dimensions_scr
    rw [(analyze_file_path_preserves _).1]
    exact hhit.1
  · rw [finalizeResult_sp, analyze_exif_data_core_sp]
    unfold analyze_asset_metadata_core
    rw [analyze_size_sp, analyze_dimensions_sp,
        (analyze_file_path_preserves _).2, hhit.2, withFaces_sp]
    rfl

/-- C7 witness: `Screenshot_2023.png` matches the first pattern of the
screenshot family; the verdict raises the flag and carries exactly that
pattern as screenshot-pattern evidence. -/
theorem C7_witness :
    ∃ r, analyze_image "w7" c7_info 0 (ContentOutcome.analyzed 0 false) "t" =
        AnalyzeOutcome.verdict r ∧
      r.is_screenshot = true ∧
      r.flags.filter Evidence.isScreenshotPattern =
        [Evidence.screenshotPattern ("screenshot".toList)] :=
  C7_screenshot_pattern_first_match "w7" c7_info 0
    (ContentOutcome.analyzed 0 false) "t" ("screenshot".toList) (by decide)
    (by decide)

/-- C8: an asset whose known EXIF width×height equals one of the configured
device/screen resolutions is classified with the screenshot flag raised, no
matter what its filename is. -/
theorem C8_resolution_implies_screenshot (asset_id : String)
    (info : AssetInfo) (facesCount : Nat) (content : ContentOutcome)
    (now : String) (e : ExifData) (w h : Nat)
    (hexif : info.exifInfo = ExifVal.val e)
    (hw : e.imageWidth = some w) (hh : e.imageHeight = some h)
    (hres : (w, h) ∈ screenshot_resolutions) :
    ∃ r, analyze_image asset_id info facesCount content now =
        AnalyzeOutcome.verdict r ∧ r.is_screenshot = true := by
  have hne : info.exifInfo ≠ ExifVal.null := by
    rw [hexif]
    intro hcon
    exact ExifVal.noConfusion hcon
  rw [analyze_image_verdict_form asset_id info facesCount content now hne]
  refine ⟨_, rfl, ?_⟩
  apply finalizeResult_scr
  apply analyze_exif_data_core_scr
  unfold analyze_asset_metadata_core
  apply analyze_size_scr
  have hoe : exifOrEmpty info.exifInfo = e := by
    rw [hexif]
    rfl
  rw [hoe]
  exact analyze_dimensions_resolution_hit _ e w h hw hh hres

/-- C8 witness: `vacation.jpg` — no screenshot-like name — at 1920×1080 is
flagged as a screenshot. -/
theorem C8_witness :
    ∃ r, analyze_image "w8" c8_info 0 (ContentOutcome.analyzed 0 false) "t" =
        AnalyzeOutcome.verdict r ∧ r.is_screenshot = true :=
  C8_resolution_implies_screenshot "w8" c8_info 0
    (ContentOutcome.analyzed 0 false) "t" c8_exif 1920 1080 rfl rfl rfl
    (by decide)
